import Mathlib

/-
Shallow embedding of the CobremsGenerator class from src/src/CobremsGenerator.hh
(HDGeant4).  The header declares the full public interface and gives inline
bodies for the simple field setters and for resetTargetOrientation; the
implementation file with the remaining method bodies (constructor,
setTargetCrystal, the rate formulas, the convolution and the Debye-Waller
constant) is not part of the sources, so those operations are modelled from
the specification, as marked in their doc comments.

Units follow the header comment: lengths in m, energies in GeV, angles in
radians.  C++ doubles are modelled as real numbers.
-/

namespace Cobrems

/-- Mirror of the private struct lattice_vector in CobremsGenerator.hh
(three Cartesian components). -/
structure lattice_vector where
  x : ℝ
  y : ℝ
  z : ℝ

/-- Mirror of the private struct crystal_parameters_t in CobremsGenerator.hh:
name, number of unit-cell sites, atomic and lattice constants, and the
unit-cell basis together with the primary reciprocal-lattice direction. -/
structure crystal_parameters_t where
  name : String
  nsites : Int
  Z : ℝ
  A : ℝ
  density : ℝ
  lattice_constant : ℝ
  radiation_length : ℝ
  Debye_Waller_const : ℝ
  mosaic_spread : ℝ
  betaFF : ℝ
  ucell_site : List lattice_vector
  primaryHKL : lattice_vector

/-- The 3x3 target rotation matrix fTargetRmatrix[3][3], with entry mij
standing for fTargetRmatrix[i][j]. -/
structure TargetRmatrix where
  m00 : ℝ
  m01 : ℝ
  m02 : ℝ
  m10 : ℝ
  m11 : ℝ
  m12 : ℝ
  m20 : ℝ
  m21 : ℝ
  m22 : ℝ

/-- The identity rotation matrix, as written entry by entry in the inline
body of CobremsGenerator::resetTargetOrientation. -/
def identityRmatrix : TargetRmatrix :=
  { m00 := 1, m01 := 0, m02 := 0
    m10 := 0, m11 := 1, m12 := 0
    m20 := 0, m21 := 0, m22 := 1 }

/-- Row-orthonormality of a 3x3 matrix: each row has unit norm and distinct
rows are orthogonal (equivalently R * Rtranspose = identity). -/
def TargetRmatrix.orthonormal (R : TargetRmatrix) : Prop :=
  R.m00 ^ 2 + R.m01 ^ 2 + R.m02 ^ 2 = 1 ∧
  R.m10 ^ 2 + R.m11 ^ 2 + R.m12 ^ 2 = 1 ∧
  R.m20 ^ 2 + R.m21 ^ 2 + R.m22 ^ 2 = 1 ∧
  R.m00 * R.m10 + R.m01 * R.m11 + R.m02 * R.m12 = 0 ∧
  R.m00 * R.m20 + R.m01 * R.m21 + R.m02 * R.m22 = 0 ∧
  R.m10 * R.m20 + R.m11 * R.m21 + R.m12 * R.m22 = 0

/-- The private data members of class CobremsGenerator, in declaration
order from the header. -/
structure CobremsState where
  fTargetCrystal : crystal_parameters_t
  fTargetThickness : ℝ
  fTargetThetax : ℝ
  fTargetThetay : ℝ
  fTargetThetaz : ℝ
  fTargetRmatrix : TargetRmatrix
  fBeamEnergy : ℝ
  fBeamErms : ℝ
  fBeamEmittance : ℝ
  fCollimatorSpotrms : ℝ
  fCollimatorDistance : ℝ
  fCollimatorDiameter : ℝ
  fCollimatedFlux : Bool
  fPolarizedFlux : Bool
  fQ2theta2 : List ℝ
  fQ2weight : List ℝ

/-- Error taxonomy of the specification: InvalidParameter, UnknownCrystal,
OutOfRangeQuery. -/
inductive CobremsError where
  | InvalidParameter
  | UnknownCrystal
  | OutOfRangeQuery
deriving DecidableEq, Repr

/-- Inline body from the header: fBeamEnergy = Ebeam_GeV (a plain store,
no validation). -/
def setBeamEnergy (s : CobremsState) (Ebeam_GeV : ℝ) : CobremsState :=
  { s with fBeamEnergy := Ebeam_GeV }

/-- Inline body from the header: fBeamErms = Erms_GeV. -/
def setBeamErms (s : CobremsState) (Erms_GeV : ℝ) : CobremsState :=
  { s with fBeamErms := Erms_GeV }

/-- Inline body from the header: fBeamEmittance = emit_m_r. -/
def setBeamEmittance (s : CobremsState) (emit_m_r : ℝ) : CobremsState :=
  { s with fBeamEmittance := emit_m_r }

/-- Inline body from the header: fCollimatorSpotrms = spotrms_m. -/
def setCollimatorSpotrms (s : CobremsState) (spotrms_m : ℝ) : CobremsState :=
  { s with fCollimatorSpotrms := spotrms_m }

/-- Inline body from the header: fCollimatorDistance = distance_m. -/
def setCollimatorDistance (s : CobremsState) (distance_m : ℝ) : CobremsState :=
  { s with fCollimatorDistance := distance_m }

/-- Inline body from the header: fCollimatorDiameter = diameter_m. -/
def setCollimatorDiameter (s : CobremsState) (diameter_m : ℝ) : CobremsState :=
  { s with fCollimatorDiameter := diameter_m }

/-- Inline body from the header: fTargetThickness = thickness_m (a plain
store, no validation). -/
def setTargetThickness (s : CobremsState) (thickness_m : ℝ) : CobremsState :=
  { s with fTargetThickness := thickness_m }

/-- Inline body from the header: fTargetThetax = thetax.  Only the angle
field is written; fTargetRmatrix is not touched. -/
def setTargetThetax (s : CobremsState) (thetax : ℝ) : CobremsState :=
  { s with fTargetThetax := thetax }

/-- Inline body from the header: fTargetThetay = thetay. -/
def setTargetThetay (s : CobremsState) (thetay : ℝ) : CobremsState :=
  { s with fTargetThetay := thetay }

/-- Inline body from the header: fTargetThetaz = thetaz. -/
def setTargetThetaz (s : CobremsState) (thetaz : ℝ) : CobremsState :=
  { s with fTargetThetaz := thetaz }

/-- Inline body from the header: fCollimatedFlux = flag. -/
def setCollimatedFlux (s : CobremsState) (flag : Bool) : CobremsState :=
  { s with fCollimatedFlux := flag }

/-- Inline body from the header: fPolarizedFlux = flag. -/
def setPolarizedFlux (s : CobremsState) (flag : Bool) : CobremsState :=
  { s with fPolarizedFlux := flag }

/-- Inline body from the header: writes the nine entries of fTargetRmatrix
with the identity matrix.  The three angle fields are not touched. -/
def resetTargetOrientation (s : CobremsState) : CobremsState :=
  { s with fTargetRmatrix := identityRmatrix }

/-- Modelled from the spec: the electron mass constant me declared in the
header (static const double me), in GeV. -/
def me : ℝ := 0.510998910e-3

/-- Modelled from the spec: the crystal-descriptor table entry for diamond
("identifies a named crystal (e.g., diamond)" with Z, A, density, lattice
constant, radiation length, Debye-Waller constant, mosaic spread, form-factor
parameter, the eight unit-cell site basis vectors of the diamond cubic cell,
and the primary reciprocal-lattice direction (2,2,0)); the defining .cc file
with the numeric table is not among the sources. -/
def diamondCrystal : crystal_parameters_t :=
  { name := "diamond"
    nsites := 8
    Z := 6
    A := 12.01
    density := 3.534
    lattice_constant := 3.567e-10
    radiation_length := 0.1213
    Debye_Waller_const := 145.0
    mosaic_spread := 20e-6
    betaFF := 111.0
    ucell_site :=
      [⟨0, 0, 0⟩, ⟨0, 0.5, 0.5⟩, ⟨0.5, 0, 0.5⟩, ⟨0.5, 0.5, 0⟩,
       ⟨0.25, 0.25, 0.25⟩, ⟨0.25, 0.75, 0.75⟩,
       ⟨0.75, 0.25, 0.75⟩, ⟨0.75, 0.75, 0.25⟩]
    primaryHKL := ⟨2, 2, 0⟩ }

/-- Modelled from the spec: the fixed lookup table of supported crystals
behind setTargetCrystal ("looks up a fixed table of supported crystals");
the header configures the class for diamond. -/
def lookupCrystal (name : String) : Option crystal_parameters_t :=
  if name = "diamond" then some diamondCrystal else none

/-- Modelled from the spec: setTargetCrystal(name) looks up the fixed table;
on success it installs the crystal descriptor, otherwise it fails with an
UnknownCrystal condition and leaves the prior configuration unchanged.  The
body is not among the sources (only the declaration is in the header). -/
def setTargetCrystal (s : CobremsState) (crystal : String) :
    CobremsState × Option CobremsError :=
  match lookupCrystal crystal with
  | some p => ({ s with fTargetCrystal := p }, none)
  | none => (s, some CobremsError.UnknownCrystal)

/-- Modelled from the spec: the configuration state produced by a successful
construction, before any mutator call: diamond radiator of default thickness,
identity orientation, zero angles, beam energy Emax, and the Hall-D-like
collimator geometry of the header comment.  The coherent-edge angle
initialization performed by the real constructor is abstracted to the
identity orientation. -/
def initialState (Emax_GeV : ℝ) : CobremsState :=
  { fTargetCrystal := diamondCrystal
    fTargetThickness := 20e-6
    fTargetThetax := 0
    fTargetThetay := 0
    fTargetThetaz := 0
    fTargetRmatrix := identityRmatrix
    fBeamEnergy := Emax_GeV
    fBeamErms := 0
    fBeamEmittance := 0
    fCollimatorSpotrms := 0.5e-3
    fCollimatorDistance := 76.0
    fCollimatorDiameter := 0.0034
    fCollimatedFlux := false
    fPolarizedFlux := false
    fQ2theta2 := []
    fQ2weight := [] }

/-- Modelled from the spec: the constructor CobremsGenerator(Emax_GeV,
Epeak_GeV); "both must be positive and Epeak<Emax, else construction fails
with an InvalidParameter condition".  The body is not among the sources. -/
noncomputable def constructCobremsGenerator (Emax_GeV Epeak_GeV : ℝ) :
    Except CobremsError CobremsState :=
  if 0 < Emax_GeV ∧ 0 < Epeak_GeV ∧ Epeak_GeV < Emax_GeV then
    Except.ok (initialState Emax_GeV)
  else
    Except.error CobremsError.InvalidParameter

/-- Modelled from the spec: Rate_dNidx(x), the incoherent bremsstrahlung
rate from the "standard Bethe-Heitler-type thin-radiator formula
parametrized by radiation length"; zero for x outside (0,1).  The body is
not among the sources. -/
noncomputable def Rate_dNidx (s : CobremsState) (x : ℝ) : ℝ :=
  if x ≤ 0 ∨ 1 ≤ x then 0
  else (s.fTargetThickness / s.fTargetCrystal.radiation_length) *
       (4 / 3 - 4 * x / 3 + x ^ 2) / x

/-- Modelled from the spec: Rate_dNBidx(x), the alternative incoherent
(amorphous-equivalent) rate estimate; zero for x outside (0,1).  The body is
not among the sources. -/
noncomputable def Rate_dNBidx (s : CobremsState) (x : ℝ) : ℝ :=
  if x ≤ 0 ∨ 1 ≤ x then 0
  else (s.fTargetThickness / s.fTargetCrystal.radiation_length) *
       (4 / 3 - 4 * x / 3 + x ^ 2) / x *
       (s.fTargetCrystal.Z / (s.fTargetCrystal.Z + 1))

/-- Modelled from the spec: Rate_dNidxdt2(x, theta2), the incoherent rate
differential in both x and reduced angle squared; zero for x outside (0,1).
The body is not among the sources. -/
noncomputable def Rate_dNidxdt2 (s : CobremsState) (x theta2 : ℝ) : ℝ :=
  if x ≤ 0 ∨ 1 ≤ x then 0
  else (s.fTargetThickness / s.fTargetCrystal.radiation_length) *
       (4 / 3 - 4 * x / 3 + x ^ 2) / x *
       (2 * theta2 / (1 + theta2) ^ 4)

/-- Modelled from the spec: Rate_dNcdx(x), the coherent rate "built by
integrating the LatticeSumRecord's weighted contributions that are
kinematically allowed at that x"; zero for x outside (0,1).  A recorded
angle-squared entry contributes when it lies above the kinematic threshold
x/(1-x) for that photon energy fraction.  The body is not among the
sources. -/
noncomputable def Rate_dNcdx (s : CobremsState) (x : ℝ) : ℝ :=
  if x ≤ 0 ∨ 1 ≤ x then 0
  else (s.fTargetThickness / s.fTargetCrystal.radiation_length) *
       (((s.fQ2theta2.zip s.fQ2weight).map fun p =>
           if x / (1 - x) ≤ p.1 then p.2 * (1 - x + x ^ 2 / 2) else 0).sum)

/-- Modelled from the spec: Rate_dNcdxdp(x, phi), the coherent rate
differential in azimuth phi as well as x; zero for x outside (0,1).  The
body is not among the sources. -/
noncomputable def Rate_dNcdxdp (s : CobremsState) (x phi : ℝ) : ℝ :=
  if x ≤ 0 ∨ 1 ≤ x then 0
  else Rate_dNcdx s x * (1 + Real.cos (2 * phi)) / (2 * Real.pi)

/-- Modelled from the spec: Rate_dNtdx(x), the "total rate
(coherent+incoherent)"; zero for x outside (0,1).  The body is not among
the sources. -/
noncomputable def Rate_dNtdx (s : CobremsState) (x : ℝ) : ℝ :=
  if x ≤ 0 ∨ 1 ≤ x then 0
  else Rate_dNcdx s x + Rate_dNidx s x

/-- Modelled from the spec: Rate_dNtdk(k), the total rate "expressed per
unit photon energy rather than per unit x".  The body is not among the
sources. -/
noncomputable def Rate_dNtdk (s : CobremsState) (k_GeV : ℝ) : ℝ :=
  Rate_dNtdx s (k_GeV / s.fBeamEnergy) / s.fBeamEnergy

/-- Modelled from the spec: the reduced angular variable of the
bremsstrahlung cross section, as a function of the production angle squared
in units of (me/E)^2. -/
noncomputable def xiAngular (theta2 : ℝ) : ℝ := 1 / (1 + theta2)

/-- Modelled from the spec: the common thin-radiator normalization shared
by the two polarization components. -/
noncomputable def polNorm (s : CobremsState) (x : ℝ) : ℝ :=
  (s.fTargetThickness / s.fTargetCrystal.radiation_length) / x

/-- Modelled from the spec: Rate_para(x, theta2, phi), the rate component
polarized parallel to the reaction plane; zero for x outside (0,1).  The
body is not among the sources. -/
noncomputable def Rate_para (s : CobremsState) (x theta2 phi : ℝ) : ℝ :=
  if x ≤ 0 ∨ 1 ≤ x then 0
  else polNorm s x *
       ((1 - x) * (2 * xiAngular theta2 * (1 - xiAngular theta2) *
                   Real.cos phi) ^ 2 +
        (x ^ 2 / 2) * xiAngular theta2 ^ 2)

/-- Modelled from the spec: Rate_ortho(x, theta2, phi), the rate component
polarized perpendicular to the reaction plane; zero for x outside (0,1).
The body is not among the sources. -/
noncomputable def Rate_ortho (s : CobremsState) (x theta2 phi : ℝ) : ℝ :=
  if x ≤ 0 ∨ 1 ≤ x then 0
  else polNorm s x *
       ((1 - x) * (2 * xiAngular theta2 * (1 - xiAngular theta2) *
                   Real.sin phi) ^ 2 +
        (x ^ 2 / 2) * xiAngular theta2 ^ 2)

/-- Modelled from the spec: Polarization(x, theta2) =
(para - ortho)/(para + ortho), with the two components evaluated at the
reaction-plane reference azimuth phi = 0.  The body is not among the
sources. -/
noncomputable def Polarization (s : CobremsState) (x theta2 : ℝ) : ℝ :=
  (Rate_para s x theta2 0 - Rate_ortho s x theta2 0) /
  (Rate_para s x theta2 0 + Rate_ortho s x theta2 0)

/-- Modelled from the spec: the positive prefactor of the Debye-model
expression for the Debye-Waller constant (the combination
3 hbar^2 c^2 / (amu kB) in the header units, 1/GeV^2 after dividing by A
and the Debye temperature); the spec fixes only its positivity and the
temperature dependence of the whole expression. -/
def dwPrefactor : ℝ := 8.7e6

/-- Modelled from the spec: getTargetDebyeWallerConstant(DebyeT_K, T_K)
"computes the thermal damping constant from Debye temperature and target
temperature via the standard Debye-model integral approximation
(closed-form, no iteration)", with the damping constant growing with the
target temperature; here in its closed form with the zero-point term 1/4
plus the thermal term T/DebyeT.  The body is not among the sources. -/
noncomputable def getTargetDebyeWallerConstant (s : CobremsState)
    (DebyeT_K T_K : ℝ) : ℝ :=
  dwPrefactor / (s.fTargetCrystal.A * DebyeT_K) * (0.25 + T_K / DebyeT_K)

/-- Modelled from the spec: the squared width of the beam-crystal
convolution kernel, "derived from the beam energy RMS spread and emittance
projected through the coherent-edge kinematics". -/
noncomputable def convSigma2 (s : CobremsState) : ℝ :=
  (s.fBeamErms / s.fBeamEnergy) ^ 2 +
  (s.fBeamEmittance / s.fCollimatorSpotrms) ^ 2

/-- Modelled from the spec: one Gaussian kernel weight of the direct
weighted-sum convolution. -/
noncomputable def gaussWeight (sigma2 d : ℝ) : ℝ :=
  Real.exp (-(d ^ 2) / (2 * sigma2))

/-- Modelled from the spec: the normalized direct weighted sum giving the
convolved sample at one grid point. -/
noncomputable def convolveAt (sigma2 : ℝ) (xs ys : List ℝ) (x0 : ℝ) : ℝ :=
  (((xs.zip ys).map fun p => gaussWeight sigma2 (x0 - p.1) * p.2).sum) /
  ((xs.map fun xj => gaussWeight sigma2 (x0 - xj)).sum)

/-- Modelled from the spec: applyBeamCrystalConvolution(nbins, xvalues,
yvalues) convolves the caller's rate samples in place with the Gaussian
kernel of width convSigma2, as a direct weighted sum over the supplied
grid; a grid size/array-length mismatch is an OutOfRangeQuery condition,
and a vanishing kernel width is the identity-kernel boundary case that
leaves both arrays unchanged.  The body is not among the sources. -/
noncomputable def applyBeamCrystalConvolution (s : CobremsState) (nbins : ℕ)
    (xvalues yvalues : List ℝ) : (List ℝ × List ℝ) × Option CobremsError :=
  if nbins = 0 ∨ xvalues.length ≠ nbins ∨ yvalues.length ≠ nbins then
    ((xvalues, yvalues), some CobremsError.OutOfRangeQuery)
  else if convSigma2 s = 0 then
    ((xvalues, yvalues), none)
  else
    ((xvalues, xvalues.map (convolveAt (convSigma2 s) xvalues yvalues)), none)

/-- A 3x3 matrix with all entries zero, used as a starting value of the
private member fTargetRmatrix that is not orthonormal. -/
def zeroRmatrix : TargetRmatrix :=
  { m00 := 0, m01 := 0, m02 := 0
    m10 := 0, m11 := 0, m12 := 0
    m20 := 0, m21 := 0, m22 := 0 }

/-- A configuration state whose rotation matrix is the zero matrix. -/
def badRmatrixState : CobremsState :=
  { initialState 12.0 with fTargetRmatrix := zeroRmatrix }

/-- A configuration state with a nonzero stored thetax angle. -/
def angleOneState : CobremsState :=
  { initialState 12.0 with fTargetThetax := 1 }

/-- C1 counterexample: calling the angle mutator setTargetThetax does not
regenerate the rotation matrix: started from a state whose matrix is the
zero matrix, the matrix after the call is still the zero matrix, which is
not orthonormal. -/
theorem C1_counterexample :
    ¬ TargetRmatrix.orthonormal
        ((setTargetThetax badRmatrixState 0.5).fTargetRmatrix) := by
  intro h
  have h0 := h.1
  norm_num [setTargetThetax, badRmatrixState, zeroRmatrix] at h0

/-- C1 amended: the angle mutators setTargetThetax, setTargetThetay and
setTargetThetaz store only their angle field and leave the rotation matrix
fTargetRmatrix unchanged (no regeneration takes place), while
resetTargetOrientation sets fTargetRmatrix to the identity matrix, which is
orthonormal. -/
theorem C1_angle_mutators_leave_matrix (s : CobremsState) (a : ℝ) :
    (setTargetThetax s a).fTargetRmatrix = s.fTargetRmatrix ∧
    (setTargetThetay s a).fTargetRmatrix = s.fTargetRmatrix ∧
    (setTargetThetaz s a).fTargetRmatrix = s.fTargetRmatrix ∧
    (resetTargetOrientation s).fTargetRmatrix = identityRmatrix ∧
    TargetRmatrix.orthonormal (resetTargetOrientation s).fTargetRmatrix := by
  refine ⟨rfl, rfl, rfl, rfl, ?_⟩
  norm_num [resetTargetOrientation, identityRmatrix, TargetRmatrix.orthonormal]

/-- C2 counterexample: after resetTargetOrientation on a state whose stored
thetax angle is 1, the angle field fTargetThetax still holds 1, so the
three angle fields are not zeroed. -/
theorem C2_counterexample :
    (resetTargetOrientation angleOneState).fTargetThetax ≠ 0 := by
  norm_num [resetTargetOrientation, angleOneState]

/-- C2 amended: resetTargetOrientation sets the rotation matrix
fTargetRmatrix to the 3x3 identity matrix, and leaves the three angle
fields fTargetThetax, fTargetThetay, fTargetThetaz unchanged (they are not
zeroed). -/
theorem C2_reset_identity_keeps_angles (s : CobremsState) :
    (resetTargetOrientation s).fTargetRmatrix = identityRmatrix ∧
    (resetTargetOrientation s).fTargetThetax = s.fTargetThetax ∧
    (resetTargetOrientation s).fTargetThetay = s.fTargetThetay ∧
    (resetTargetOrientation s).fTargetThetaz = s.fTargetThetaz :=
  ⟨rfl, rfl, rfl, rfl⟩

/-- C3: for every configuration state and every photon energy fraction x
strictly between 0 and 1, the total rate Rate_dNtdx(x) equals the sum of
the coherent rate Rate_dNcdx(x) and the incoherent rate Rate_dNidx(x). -/
theorem C3_total_rate_is_coherent_plus_incoherent (s : CobremsState) (x : ℝ)
    (h1 : 0 < x) (h2 : x < 1) :
    Rate_dNtdx s x = Rate_dNcdx s x + Rate_dNidx s x := by
  have hx : ¬ (x ≤ 0 ∨ 1 ≤ x) := by rintro (h | h) <;> linarith
  simp only [Rate_dNtdx, if_neg hx]

/-- Witness for C3 at the concrete configuration of a fresh 12 GeV
instance and x = 1/2. -/
theorem C3_witness :
    Rate_dNtdx (initialState 12.0) 0.5 =
      Rate_dNcdx (initialState 12.0) 0.5 + Rate_dNidx (initialState 12.0) 0.5 :=
  C3_total_rate_is_coherent_plus_incoherent (initialState 12.0) 0.5
    (by norm_num) (by norm_num)

/-- C4: for every x outside the open interval (0,1), each of the eight rate
functions Rate_dNtdx, Rate_dNcdx, Rate_dNcdxdp, Rate_dNidx, Rate_dNBidx,
Rate_dNidxdt2, Rate_para, Rate_ortho returns exactly 0 (a plain return
value, not an error condition). -/
theorem C4_rates_vanish_outside_unit_interval (s : CobremsState) (x : ℝ)
    (h : x ≤ 0 ∨ 1 ≤ x) :
    Rate_dNtdx s x = 0 ∧
    Rate_dNcdx s x = 0 ∧
    (∀ phi, Rate_dNcdxdp s x phi = 0) ∧
    Rate_dNidx s x = 0 ∧
    Rate_dNBidx s x = 0 ∧
    (∀ theta2, Rate_dNidxdt2 s x theta2 = 0) ∧
    (∀ theta2 phi, Rate_para s x theta2 phi = 0) ∧
    (∀ theta2 phi, Rate_ortho s x theta2 phi = 0) := by
  refine ⟨?_, ?_, ?_, ?_, ?_, ?_, ?_, ?_⟩ <;> intros <;>
    simp only [Rate_dNtdx, Rate_dNcdx, Rate_dNcdxdp, Rate_dNidx, Rate_dNBidx,
               Rate_dNidxdt2, Rate_para, Rate_ortho, if_pos h]

/-- Witness for C4 at the concrete configuration of a fresh 12 GeV
instance and the out-of-range value x = 2. -/
theorem C4_witness :
    Rate_dNtdx (initialState 12.0) 2 = 0 ∧
    Rate_dNcdx (initialState 12.0) 2 = 0 ∧
    (∀ phi, Rate_dNcdxdp (initialState 12.0) 2 phi = 0) ∧
    Rate_dNidx (initialState 12.0) 2 = 0 ∧
    Rate_dNBidx (initialState 12.0) 2 = 0 ∧
    (∀ theta2, Rate_dNidxdt2 (initialState 12.0) 2 theta2 = 0) ∧
    (∀ theta2 phi, Rate_para (initialState 12.0) 2 theta2 phi = 0) ∧
    (∀ theta2 phi, Rate_ortho (initialState 12.0) 2 theta2 phi = 0) :=
  C4_rates_vanish_outside_unit_interval (initialState 12.0) 2 (by norm_num)

/-- C5: for every crystal name absent from the fixed table of supported
crystals, setTargetCrystal fails with the UnknownCrystal condition and
returns the prior configuration state unchanged. -/
theorem C5_unknown_crystal_rejected (s : CobremsState) (name : String)
    (h : lookupCrystal name = none) :
    setTargetCrystal s name = (s, some CobremsError.UnknownCrystal) := by
  simp only [setTargetCrystal, h]

/-- Witness for C5 at the unsupported crystal name "graphite" and a fresh
12 GeV instance. -/
theorem C5_witness :
    setTargetCrystal (initialState 12.0) "graphite" =
      (initialState 12.0, some CobremsError.UnknownCrystal) :=
  C5_unknown_crystal_rejected (initialState 12.0) "graphite"
    (by rw [lookupCrystal]; exact if_neg (by decide))

/-- C6 counterexample: the setters do not fail on physically impossible
values: setTargetThickness given the negative thickness -1e-6 returns
normally and stores -1e-6, and setBeamEnergy given the negative energy -5
returns normally and stores -5 (the inline bodies in the header are plain
stores with no validation and no error path). -/
theorem C6_counterexample :
    (setTargetThickness (initialState 12.0) (-1e-6)).fTargetThickness = -1e-6 ∧
    (setBeamEnergy (initialState 12.0) (-5)).fBeamEnergy = -5 :=
  ⟨rfl, rfl⟩

/-- C6 amended: construction fails with an InvalidParameter condition
unless both arguments are positive and Epeak_GeV < Emax_GeV; but the
setters perform no validation at all: setTargetThickness and setBeamEnergy
store the given value into their field unconditionally (even a negative
one), modifying nothing else and reporting no error. -/
theorem C6_construction_validates_setters_do_not :
    (∀ Emax_GeV Epeak_GeV : ℝ,
       ¬ (0 < Emax_GeV ∧ 0 < Epeak_GeV ∧ Epeak_GeV < Emax_GeV) →
       constructCobremsGenerator Emax_GeV Epeak_GeV =
         Except.error CobremsError.InvalidParameter) ∧
    (∀ (s : CobremsState) (t : ℝ),
       setTargetThickness s t = { s with fTargetThickness := t }) ∧
    (∀ (s : CobremsState) (E : ℝ),
       setBeamEnergy s E = { s with fBeamEnergy := E }) :=
  ⟨fun _ _ h => by simp only [constructCobremsGenerator, if_neg h],
   fun _ _ => rfl, fun _ _ => rfl⟩

/-- Witness for C6 at the invalid construction arguments (12, -1) and at
a negative thickness stored by the setter. -/
theorem C6_witness :
    constructCobremsGenerator 12.0 (-1.0) =
      Except.error CobremsError.InvalidParameter ∧
    setTargetThickness (initialState 12.0) (-1.0) =
      { initialState 12.0 with fTargetThickness := -1.0 } :=
  ⟨C6_construction_validates_setters_do_not.1 12.0 (-1.0) (by norm_num),
   C6_construction_validates_setters_do_not.2.1 (initialState 12.0) (-1.0)⟩

/-- C7: when the beam RMS energy spread and the beam emittance are both 0,
applyBeamCrystalConvolution with matching grid sizes returns both arrays
numerically unchanged and reports no error (the identity-kernel boundary
case). -/
theorem C7_convolution_identity_kernel (s : CobremsState) (nbins : ℕ)
    (xvalues yvalues : List ℝ)
    (hErms : s.fBeamErms = 0) (hEmit : s.fBeamEmittance = 0)
    (hn : 0 < nbins) (hx : xvalues.length = nbins)
    (hy : yvalues.length = nbins) :
    applyBeamCrystalConvolution s nbins xvalues yvalues =
      ((xvalues, yvalues), none) := by
  have hσ : convSigma2 s = 0 := by
    simp [convSigma2, hErms, hEmit]
  have hc : ¬ (nbins = 0 ∨ xvalues.length ≠ nbins ∨ yvalues.length ≠ nbins) := by
    push_neg
    exact ⟨hn.ne', hx, hy⟩
  simp only [applyBeamCrystalConvolution, if_neg hc, if_pos hσ]

/-- Witness for C7 on a fresh 12 GeV instance (whose RMS spread and
emittance are zero) with a concrete two-point grid. -/
theorem C7_witness :
    applyBeamCrystalConvolution (initialState 12.0) 2 [0.1, 0.2] [3, 4] =
      (([0.1, 0.2], [3, 4]), none) :=
  C7_convolution_identity_kernel (initialState 12.0) 2 [0.1, 0.2] [3, 4]
    rfl rfl (by norm_num) rfl rfl

/-- Bound on a polarization ratio whose two components share a common
normalization factor N and have nonnegative reduced intensities a and b. -/
theorem polRatio_bounds (N a b : ℝ) (ha : 0 ≤ a) (hb : 0 ≤ b) :
    -1 ≤ (N * a - N * b) / (N * a + N * b) ∧
    (N * a - N * b) / (N * a + N * b) ≤ 1 := by
  have habs : |N * a - N * b| ≤ |N * a + N * b| := by
    rw [show N * a - N * b = N * (a - b) by ring,
        show N * a + N * b = N * (a + b) by ring, abs_mul, abs_mul]
    refine mul_le_mul_of_nonneg_left ?_ (abs_nonneg N)
    rw [abs_of_nonneg (by linarith : (0:ℝ) ≤ a + b), abs_le]
    constructor <;> linarith
  have h1 : |(N * a - N * b) / (N * a + N * b)| ≤ 1 := by
    rw [abs_div]
    exact div_le_one_of_le₀ habs (abs_nonneg _)
  exact abs_le.mp h1

/-- C8: for every x in (0,1) and theta2 ≥ 0, Polarization(x, theta2)
equals (Rate_para - Rate_ortho)/(Rate_para + Rate_ortho) taken at the
reaction-plane reference azimuth, and lies in the closed interval
[-1, 1]. -/
theorem C8_polarization_ratio_bounded (s : CobremsState) (x theta2 : ℝ)
    (h1 : 0 < x) (h2 : x < 1) (h3 : 0 ≤ theta2) :
    Polarization s x theta2 =
      (Rate_para s x theta2 0 - Rate_ortho s x theta2 0) /
      (Rate_para s x theta2 0 + Rate_ortho s x theta2 0) ∧
    -1 ≤ Polarization s x theta2 ∧ Polarization s x theta2 ≤ 1 := by
  have hx : ¬ (x ≤ 0 ∨ 1 ≤ x) := by rintro (h | h) <;> linarith
  have h1x : (0:ℝ) ≤ 1 - x := by linarith
  have hA : 0 ≤ (1 - x) * (2 * xiAngular theta2 * (1 - xiAngular theta2) *
                 Real.cos 0) ^ 2 + (x ^ 2 / 2) * xiAngular theta2 ^ 2 :=
    add_nonneg (mul_nonneg h1x (sq_nonneg _))
      (mul_nonneg (by positivity) (sq_nonneg _))
  have hB : 0 ≤ (1 - x) * (2 * xiAngular theta2 * (1 - xiAngular theta2) *
                 Real.sin 0) ^ 2 + (x ^ 2 / 2) * xiAngular theta2 ^ 2 :=
    add_nonneg (mul_nonneg h1x (sq_nonneg _))
      (mul_nonneg (by positivity) (sq_nonneg _))
  refine ⟨rfl, ?_, ?_⟩
  · unfold Polarization
    simp only [Rate_para, Rate_ortho, if_neg hx]
    exact (polRatio_bounds (polNorm s x) _ _ hA hB).1
  · unfold Polarization
    simp only [Rate_para, Rate_ortho, if_neg hx]
    exact (polRatio_bounds (polNorm s x) _ _ hA hB).2

/-- Witness for C8 at a fresh 12 GeV instance, x = 1/2 and theta2 = 1. -/
theorem C8_witness :
    Polarization (initialState 12.0) 0.5 1 =
      (Rate_para (initialState 12.0) 0.5 1 0 -
       Rate_ortho (initialState 12.0) 0.5 1 0) /
      (Rate_para (initialState 12.0) 0.5 1 0 +
       Rate_ortho (initialState 12.0) 0.5 1 0) ∧
    -1 ≤ Polarization (initialState 12.0) 0.5 1 ∧
    Polarization (initialState 12.0) 0.5 1 ≤ 1 :=
  C8_polarization_ratio_bounded (initialState 12.0) 0.5 1
    (by norm_num) (by norm_num) (by norm_num)

/-- C9 counterexample: for the diamond target crystal of a fresh 12 GeV
instance, getTargetDebyeWallerConstant(2200, 300) is not less than
getTargetDebyeWallerConstant(2200, 1): the thermal damping constant grows
with the target temperature. -/
theorem C9_counterexample :
    ¬ (getTargetDebyeWallerConstant (initialState 12.0) 2200.0 300.0 <
       getTargetDebyeWallerConstant (initialState 12.0) 2200.0 1.0) := by
  norm_num [getTargetDebyeWallerConstant, initialState, diamondCrystal,
            dwPrefactor]

/-- C9 amended: for a diamond target crystal,
getTargetDebyeWallerConstant(2200, 300) returns a positive value that is
greater than the value returned by getTargetDebyeWallerConstant(2200, 1)
(damping increases with temperature). -/
theorem C9_debye_waller_grows_with_temperature (s : CobremsState)
    (h : s.fTargetCrystal = diamondCrystal) :
    0 < getTargetDebyeWallerConstant s 2200.0 300.0 ∧
    getTargetDebyeWallerConstant s 2200.0 1.0 <
      getTargetDebyeWallerConstant s 2200.0 300.0 := by
  simp only [getTargetDebyeWallerConstant, h, diamondCrystal]
  norm_num [dwPrefactor]

/-- Witness for C9 at a fresh 12 GeV instance, whose crystal is diamond. -/
theorem C9_witness :
    0 < getTargetDebyeWallerConstant (initialState 12.0) 2200.0 300.0 ∧
    getTargetDebyeWallerConstant (initialState 12.0) 2200.0 1.0 <
      getTargetDebyeWallerConstant (initialState 12.0) 2200.0 300.0 :=
  C9_debye_waller_grows_with_temperature (initialState 12.0) rfl

/-- C10: each angle mutator writes exactly its own angle field and leaves
every other field of the instance unchanged (in particular the rotation
matrix), and resetTargetOrientation writes only fTargetRmatrix (with the
identity) and leaves every other field unchanged (in particular the three
angles). -/
theorem C10_setters_frame_conditions (s : CobremsState) (a : ℝ) :
    ((setTargetThetax s a).fTargetThetax = a ∧
     (setTargetThetax s a).fTargetCrystal = s.fTargetCrystal ∧
     (setTargetThetax s a).fTargetThickness = s.fTargetThickness ∧
     (setTargetThetax s a).fTargetThetay = s.fTargetThetay ∧
     (setTargetThetax s a).fTargetThetaz = s.fTargetThetaz ∧
     (setTargetThetax s a).fTargetRmatrix = s.fTargetRmatrix ∧
     (setTargetThetax s a).fBeamEnergy = s.fBeamEnergy ∧
     (setTargetThetax s a).fBeamErms = s.fBeamErms ∧
     (setTargetThetax s a).fBeamEmittance = s.fBeamEmittance ∧
     (setTargetThetax s a).fCollimatorSpotrms = s.fCollimatorSpotrms ∧
     (setTargetThetax s a).fCollimatorDistance = s.fCollimatorDistance ∧
     (setTargetThetax s a).fCollimatorDiameter = s.fCollimatorDiameter ∧
     (setTargetThetax s a).fCollimatedFlux = s.fCollimatedFlux ∧
     (setTargetThetax s a).fPolarizedFlux = s.fPolarizedFlux ∧
     (setTargetThetax s a).fQ2theta2 = s.fQ2theta2 ∧
     (setTargetThetax s a).fQ2weight = s.fQ2weight) ∧
    ((setTargetThetay s a).fTargetThetay = a ∧
     (setTargetThetay s a).fTargetCrystal = s.fTargetCrystal ∧
     (setTargetThetay s a).fTargetThickness = s.fTargetThickness ∧
     (setTargetThetay s a).fTargetThetax = s.fTargetThetax ∧
     (setTargetThetay s a).fTargetThetaz = s.fTargetThetaz ∧
     (setTargetThetay s a).fTargetRmatrix = s.fTargetRmatrix ∧
     (setTargetThetay s a).fBeamEnergy = s.fBeamEnergy ∧
     (setTargetThetay s a).fBeamErms = s.fBeamErms ∧
     (setTargetThetay s a).fBeamEmittance = s.fBeamEmittance ∧
     (setTargetThetay s a).fCollimatorSpotrms = s.fCollimatorSpotrms ∧
     (setTargetThetay s a).fCollimatorDistance = s.fCollimatorDistance ∧
     (setTargetThetay s a).fCollimatorDiameter = s.fCollimatorDiameter ∧
     (setTargetThetay s a).fCollimatedFlux = s.fCollimatedFlux ∧
     (setTargetThetay s a).fPolarizedFlux = s.fPolarizedFlux ∧
     (setTargetThetay s a).fQ2theta2 = s.fQ2theta2 ∧
     (setTargetThetay s a).fQ2weight = s.fQ2weight) ∧
    ((setTargetThetaz s a).fTargetThetaz = a ∧
     (setTargetThetaz s a).fTargetCrystal = s.fTargetCrystal ∧
     (setTargetThetaz s a).fTargetThickness = s.fTargetThickness ∧
     (setTargetThetaz s a).fTargetThetax = s.fTargetThetax ∧
     (setTargetThetaz s a).fTargetThetay = s.fTargetThetay ∧
     (setTargetThetaz s a).fTargetRmatrix = s.fTargetRmatrix ∧
     (setTargetThetaz s a).fBeamEnergy = s.fBeamEnergy ∧
     (setTargetThetaz s a).fBeamErms = s.fBeamErms ∧
     (setTargetThetaz s a).fBeamEmittance = s.fBeamEmittance ∧
     (setTargetThetaz s a).fCollimatorSpotrms = s.fCollimatorSpotrms ∧
     (setTargetThetaz s a).fCollimatorDistance = s.fCollimatorDistance ∧
     (setTargetThetaz s a).fCollimatorDiameter = s.fCollimatorDiameter ∧
     (setTargetThetaz s a).fCollimatedFlux = s.fCollimatedFlux ∧
     (setTargetThetaz s a).fPolarizedFlux = s.fPolarizedFlux ∧
     (setTargetThetaz s a).fQ2theta2 = s.fQ2theta2 ∧
     (setTargetThetaz s a).fQ2weight = s.fQ2weight) ∧
    ((resetTargetOrientation s).fTargetRmatrix = identityRmatrix ∧
     (resetTargetOrientation s).fTargetCrystal = s.fTargetCrystal ∧
     (resetTargetOrientation s).fTargetThickness = s.fTargetThickness ∧
     (resetTargetOrientation s).fTargetThetax = s.fTargetThetax ∧
     (resetTargetOrientation s).fTargetThetay = s.fTargetThetay ∧
     (resetTargetOrientation s).fTargetThetaz = s.fTargetThetaz ∧
     (resetTargetOrientation s).fBeamEnergy = s.fBeamEnergy ∧
     (resetTargetOrientation s).fBeamErms = s.fBeamErms ∧
     (resetTargetOrientation s).fBeamEmittance = s.fBeamEmittance ∧
     (resetTargetOrientation s).fCollimatorSpotrms = s.fCollimatorSpotrms ∧
     (resetTargetOrientation s).fCollimatorDistance = s.fCollimatorDistance ∧
     (resetTargetOrientation s).fCollimatorDiameter = s.fCollimatorDiameter ∧
     (resetTargetOrientation s).fCollimatedFlux = s.fCollimatedFlux ∧
     (resetTargetOrientation s).fPolarizedFlux = s.fPolarizedFlux ∧
     (resetTargetOrientation s).fQ2theta2 = s.fQ2theta2 ∧
     (resetTargetOrientation s).fQ2weight = s.fQ2weight) := by
  refine ⟨?_, ?_, ?_, ?_⟩ <;>
    exact ⟨rfl, rfl, rfl, rfl, rfl, rfl, rfl, rfl, rfl, rfl, rfl, rfl, rfl,
           rfl, rfl, rfl⟩

end Cobrems
